import Mathlib

/-!
Verification of the vote-driven playback scheduler of the Jukebox-Gainzie
repository against its natural-language specification.

The embedding follows the source:
* `server.js` (main variant): `playNextSong`, the `/api/vote`, `/api/skip`,
  `/api/song-finished`, `/api/pause` (pause/resume toggle) and
  `/api/now-playing` handlers, with the module-level `currentlyPlaying`
  record and `playTimeout` handle;
* `server.js` (variant 1, lines 20-130): the stub `MusicPlayer` class with
  its 30-second fallback timer;
* `musicPlayer.js`: `getCurrentPlaylist` / `getNextSong`;
* `clear_votes.js` and the Dockerfile `CMD` that runs it before the server.

Conventions of the embedding:
* SQL `songs.duration INTEGER` is `Nat`, with `0` standing for both SQL `NULL`
  and a stored `0`: every use in the source goes through JavaScript
  truthiness (`if (song.duration)`, `song.duration || 0`), which does not
  distinguish the two.
* Timestamps are `Int` milliseconds (`Date.now()`); `Math.floor(x / 1000)`
  on an integer `x` is `Int.fdiv x 1000`.
* JavaScript timestamp truthiness (`if (currentlyPlaying.startTime)`) is
  modeled by `Option`: `some` is truthy. (`Date.now()` is never `0`.)
* Pending `setTimeout` callbacks are modeled as a list of timer ids
  (`pendingTimers`); `playTimeout` holds the last stored handle, exactly as
  the module-level variable does. `setTimeout` appends a fresh id without
  cancelling anything; `clearTimeout(playTimeout)` removes the stored id.
* Fallible sqlite calls take a `fail` flag selecting the `err` branch of the
  corresponding callback.
-/

namespace Jukebox

/-- A row of the `songs` table (the fields the scheduler reads). -/
structure Song where
  id : Nat
  title : String
  duration : Nat
  deriving DecidableEq, Repr

/-- A row of the `votes` table; `UNIQUE(user_id, song_id)` is enforced by the
insert path of the vote handler. -/
structure VoteRow where
  user_id : Nat
  song_id : Nat
  deriving DecidableEq, Repr

/-- The vote store and track catalog (the two tables the scheduler touches). -/
structure DB where
  songs : List Song
  votes : List VoteRow
  deriving DecidableEq, Repr

/-- `countsByTrack()[sid]`: `COUNT(v.id)` of the votes rows joined to song
`sid` (`LEFT JOIN votes v ON s.id = v.song_id ... GROUP BY s.id`). -/
def voteCount (db : DB) (sid : Nat) : Nat :=
  (db.votes.filter (fun v => decide (v.song_id = sid))).length

/-- `ORDER BY COUNT(v.id) DESC, s.id ASC` of `playNextSong`'s query, as a
relation: `a` comes no later than `b`. -/
def songRel (db : DB) (a b : Song) : Prop :=
  voteCount db b.id < voteCount db a.id ∨
    (voteCount db a.id = voteCount db b.id ∧ a.id ≤ b.id)

/-- `ORDER BY votes DESC, s.title ASC` of `musicPlayer.js`
`getCurrentPlaylist`, as a relation. SQLite's default BINARY collation on
`TEXT` is modeled as lexicographic order on the title's character list. -/
def titleRel (db : DB) (a b : Song) : Prop :=
  voteCount db b.id < voteCount db a.id ∨
    (voteCount db a.id = voteCount db b.id ∧ a.title.data ≤ b.title.data)

theorem rankRel_total {α β : Type} [LinearOrder β] (c : α → Nat) (k : α → β)
    (a b : α) :
    (c b < c a ∨ (c a = c b ∧ k a ≤ k b)) ∨
      (c a < c b ∨ (c b = c a ∧ k b ≤ k a)) := by
  rcases lt_trichotomy (c a) (c b) with h | h | h
  · exact Or.inr (Or.inl h)
  · rcases le_total (k a) (k b) with hk | hk
    · exact Or.inl (Or.inr ⟨h, hk⟩)
    · exact Or.inr (Or.inr ⟨h.symm, hk⟩)
  · exact Or.inl (Or.inl h)

theorem rankRel_trans {α β : Type} [LinearOrder β] (c : α → Nat) (k : α → β)
    (a b d : α)
    (hab : c b < c a ∨ (c a = c b ∧ k a ≤ k b))
    (hbd : c d < c b ∨ (c b = c d ∧ k b ≤ k d)) :
    c d < c a ∨ (c a = c d ∧ k a ≤ k d) := by
  rcases hab with h1 | ⟨h1, h1k⟩ <;> rcases hbd with h2 | ⟨h2, h2k⟩
  · exact Or.inl (lt_trans h2 h1)
  · exact Or.inl (h2 ▸ h1)
  · exact Or.inl (h1 ▸ h2)
  · exact Or.inr ⟨h1.trans h2, le_trans h1k h2k⟩

instance (db : DB) : DecidableRel (songRel db) := fun a b => by
  unfold songRel; exact inferInstance

instance (db : DB) : IsTotal Song (songRel db) := ⟨fun a b => by
  unfold songRel
  exact rankRel_total (fun s => voteCount db s.id) Song.id a b⟩

instance (db : DB) : IsTrans Song (songRel db) := ⟨fun a b d hab hbd => by
  unfold songRel at hab hbd ⊢
  exact rankRel_trans (fun s => voteCount db s.id) Song.id a b d hab hbd⟩

instance (db : DB) : DecidableRel (titleRel db) := fun a b => by
  unfold titleRel; exact inferInstance

instance (db : DB) : IsTotal Song (titleRel db) := ⟨fun a b => by
  unfold titleRel
  exact rankRel_total (fun s => voteCount db s.id) (fun s => s.title.data) a b⟩

instance (db : DB) : IsTrans Song (titleRel db) := ⟨fun a b d hab hbd => by
  unfold titleRel at hab hbd ⊢
  exact rankRel_trans (fun s => voteCount db s.id) (fun s => s.title.data) a b d hab hbd⟩

/-- `HAVING COUNT(v.id) > 0`: the candidate rows, in table order. -/
def candidates (db : DB) : List Song :=
  db.songs.filter (fun s => decide (0 < voteCount db s.id))

/-- The ordered candidate sequence of `playNextSong`'s query
(`HAVING COUNT(v.id) > 0 ORDER BY COUNT(v.id) DESC, s.id ASC`). -/
def rankedCandidates (db : DB) : List Song :=
  List.insertionSort (songRel db) (candidates db)

/-- `playNextSong`'s query with its `LIMIT 1`. -/
def playNextSongQuery (db : DB) : Option Song :=
  (rankedCandidates db).head?

/-- `musicPlayer.js` `getCurrentPlaylist`: `INNER JOIN votes` keeps exactly
the songs with at least one vote; `ORDER BY votes DESC, s.title ASC`. -/
def getCurrentPlaylist (db : DB) : List Song :=
  List.insertionSort (titleRel db) (candidates db)

/-- `musicPlayer.js` `getNextSong`: head of `getCurrentPlaylist`. -/
def getNextSong (db : DB) : Option Song :=
  (getCurrentPlaylist db).head?

theorem mem_candidates (db : DB) (s : Song) :
    s ∈ candidates db ↔ s ∈ db.songs ∧ 0 < voteCount db s.id := by
  simp [candidates, List.mem_filter]

theorem mem_rankedCandidates (db : DB) (s : Song) :
    s ∈ rankedCandidates db ↔ s ∈ db.songs ∧ 0 < voteCount db s.id := by
  rw [rankedCandidates, (List.perm_insertionSort (songRel db) (candidates db)).mem_iff]
  exact mem_candidates db s

theorem mem_getCurrentPlaylist (db : DB) (s : Song) :
    s ∈ getCurrentPlaylist db ↔ s ∈ db.songs ∧ 0 < voteCount db s.id := by
  rw [getCurrentPlaylist, (List.perm_insertionSort (titleRel db) (candidates db)).mem_iff]
  exact mem_candidates db s

theorem sorted_rankedCandidates (db : DB) :
    (rankedCandidates db).Sorted (songRel db) :=
  List.sorted_insertionSort (songRel db) (candidates db)

theorem sorted_getCurrentPlaylist (db : DB) :
    (getCurrentPlaylist db).Sorted (titleRel db) :=
  List.sorted_insertionSort (titleRel db) (candidates db)

/-- The module-level `currentlyPlaying` record of the main server variant. -/
structure CurrentlyPlaying where
  songId : Option Nat
  startTime : Option Int
  duration : Nat
  isPlaying : Bool
  pausedAt : Option Int
  deriving DecidableEq, Repr

/-- The record assigned when nothing plays:
`{ songId: null, startTime: null, duration: null, isPlaying: false, pausedAt: null }`. -/
def idleState : CurrentlyPlaying :=
  { songId := none, startTime := none, duration := 0, isPlaying := false,
    pausedAt := none }

/-- The scheduler-visible process state: `currentlyPlaying`, the outstanding
`setTimeout` callbacks, the stored `playTimeout` handle, and a fresh-id
counter for new timers. -/
structure ServerState where
  currentlyPlaying : CurrentlyPlaying
  pendingTimers : List Nat
  playTimeout : Option Nat
  nextTimerId : Nat
  deriving DecidableEq, Repr

/-- Process start: idle, no timers armed. -/
def initialState : ServerState :=
  { currentlyPlaying := idleState, pendingTimers := [], playTimeout := none,
    nextTimerId := 0 }

/-- `if (playTimeout) { clearTimeout(playTimeout); playTimeout = null; }` -/
def clearPlayTimeout (st : ServerState) : ServerState :=
  match st.playTimeout with
  | none => st
  | some t =>
      { st with pendingTimers := st.pendingTimers.filter (fun x => decide (x ≠ t)),
                playTimeout := none }

/-- `playTimeout = setTimeout(...)`: schedules a fresh callback and stores its
handle, without cancelling any previously scheduled one. -/
def armTimer (st : ServerState) : ServerState :=
  { st with pendingTimers := st.pendingTimers ++ [st.nextTimerId],
            playTimeout := some st.nextTimerId,
            nextTimerId := st.nextTimerId + 1 }

/-- `playNextSong(callback)` of the main variant. `fail` selects the `err`
branch of the `db.get` callback (`console.error; return callback(null)`).
On an empty result the record is set idle; otherwise the selected song is
stored with `startTime = Date.now()` and, when `song.duration` is truthy, a
timeout for `song.duration * 1000` is armed. Returns the value passed to
`callback` together with the new state. -/
def playNextSong (db : DB) (fail : Bool) (now : Int) (st : ServerState) :
    Option Song × ServerState :=
  if fail then (none, st)
  else
    match playNextSongQuery db with
    | none => (none, { st with currentlyPlaying := idleState })
    | some song =>
        let st1 := { st with currentlyPlaying :=
          { songId := some song.id, startTime := some now,
            duration := song.duration, isPlaying := true, pausedAt := none } }
        if song.duration ≠ 0 then (some song, armTimer st1) else (some song, st1)

/-- Outcome of an HTTP handler, as far as the scheduler spec cares. -/
inductive ApiResult
  | jsonMsg (msg : String)
  | jsonError (msg : String)
  | status400 (msg : String)
  | status500 (msg : String)
  deriving DecidableEq, Repr

/-- `DELETE FROM votes WHERE song_id = ?`. -/
def pruneVotes (db : DB) (sid : Nat) : DB :=
  { db with votes := db.votes.filter (fun v => decide (v.song_id ≠ sid)) }

/-- The `POST /api/skip` handler of the main variant: guard on
`currentlyPlaying.songId`, clear the timeout, prune the current song's votes
(`fail` selects the `err` branch, which answers 500 and leaves
`currentlyPlaying` untouched), then set the record idle. -/
def skipHandler (db : DB) (fail : Bool) (st : ServerState) :
    ApiResult × DB × ServerState :=
  match st.currentlyPlaying.songId with
  | none => (.jsonError "Nothing currently playing", db, st)
  | some songId =>
      let st1 := clearPlayTimeout st
      if fail then (.status500 "Database error", db, st1)
      else (.jsonMsg "Song skipped, votes removed", pruneVotes db songId,
            { st1 with currentlyPlaying := idleState })

/-- The `POST /api/song-finished` handler of the main variant; same structure
as the skip handler. -/
def songFinishedHandler (db : DB) (fail : Bool) (st : ServerState) :
    ApiResult × DB × ServerState :=
  match st.currentlyPlaying.songId with
  | none => (.jsonError "Nothing currently playing", db, st)
  | some songId =>
      let st1 := clearPlayTimeout st
      if fail then (.status500 "Database error", db, st1)
      else (.jsonMsg "Song finished, votes removed", pruneVotes db songId,
            { st1 with currentlyPlaying := idleState })

/-- The `POST /api/pause` handler of the main variant: a pause/resume toggle.
Pausing records `pausedAt = now` and clears the timeout; resuming rewrites
`startTime = now - (pausedAt - startTime)`, clears `pausedAt`, and, when the
duration is truthy and `(duration - elapsed) * 1000 > 0`, arms a timeout for
the remaining time. -/
def pauseHandler (now : Int) (st : ServerState) : ApiResult × ServerState :=
  match st.currentlyPlaying.songId with
  | none => (.status400 "Nothing currently playing", st)
  | some _ =>
      let cp := st.currentlyPlaying
      if cp.isPlaying then
        let st1 := { st with currentlyPlaying :=
          { cp with isPlaying := false, pausedAt := some now } }
        (.jsonMsg "Paused", clearPlayTimeout st1)
      else
        let newStart : Option Int :=
          match cp.pausedAt, cp.startTime with
          | some p, some s => some (now - (p - s))
          | _, _ => cp.startTime
        let cp1 : CurrentlyPlaying :=
          { cp with isPlaying := true, startTime := newStart, pausedAt := none }
        let st1 := { st with currentlyPlaying := cp1 }
        if cp1.duration ≠ 0 then
          let s0 : Int := cp1.startTime.getD 0
          let remainingMs : Int := (cp1.duration : Int) * 1000 - (now - s0)
          if 0 < remainingMs then (.jsonMsg "Resumed", armTimer st1)
          else (.jsonMsg "Resumed", st1)
        else (.jsonMsg "Resumed", st1)

/-- `SELECT id FROM songs WHERE id = ?` guard of the vote handler. -/
def songExists (db : DB) (sid : Nat) : Bool :=
  db.songs.any (fun s => decide (s.id = sid))

/-- Whether a `(user, song)` row is already present (the `UNIQUE(user_id,
song_id)` constraint fires exactly then). -/
def hasVote (db : DB) (u sid : Nat) : Bool :=
  db.votes.any (fun v => decide (v.user_id = u ∧ v.song_id = sid))

/-- Outcome of the `POST /api/vote` handler. -/
inductive VoteResult
  | songNotFound
  | alreadyVoted
  | added
  deriving DecidableEq, Repr

/-- The `POST /api/vote` handler of the main variant: checks the song exists,
inserts the vote (409 when the unique constraint fires), then — inside a
`setTimeout` — auto-starts the playlist only when
`!currentlyPlaying.isPlaying && !currentlyPlaying.songId`. -/
def voteHandler (db : DB) (userId songId : Nat) (now : Int) (st : ServerState) :
    VoteResult × DB × ServerState :=
  if ¬ songExists db songId then (.songNotFound, db, st)
  else if hasVote db userId songId then (.alreadyVoted, db, st)
  else
    let db1 : DB := { db with votes := db.votes ++ [⟨userId, songId⟩] }
    if !st.currentlyPlaying.isPlaying && st.currentlyPlaying.songId.isNone then
      (.added, db1, (playNextSong db1 false now st).2)
    else (.added, db1, st)

/-- `DELETE /api/vote/:songId`: `DELETE FROM votes WHERE user_id = ? AND
song_id = ?`. -/
def removeVoteHandler (db : DB) (userId songId : Nat) : DB :=
  { db with votes :=
      db.votes.filter (fun v => decide (¬ (v.user_id = userId ∧ v.song_id = songId))) }

/-- Expiry of the timeout armed by `playNextSong`: if the callback with id `t`
is still scheduled it fires (and is consumed), running
`playNextSong(() => {})`. The callback touches no votes row. -/
def timerFires (db : DB) (t : Nat) (now : Int) (st : ServerState) :
    DB × ServerState :=
  if t ∈ st.pendingTimers then
    let st1 := { st with pendingTimers := st.pendingTimers.filter (fun x => decide (x ≠ t)) }
    (db, (playNextSong db false now st1).2)
  else (db, st)

/-- The response of `GET /api/now-playing` when a song row is found. -/
structure NowPlayingInfo where
  playing : Bool
  currentTime : Int
  remainingTime : Int
  duration : Nat
  deriving DecidableEq, Repr

/-- The `currentTime` computation of the now-playing handler before its
`Math.max(0, _)` clamp: elapsed whole seconds, frozen at `pausedAt` while
paused. -/
def rawCurrentTime (now : Int) (cp : CurrentlyPlaying) : Int :=
  match cp.startTime with
  | none => 0
  | some s =>
      match cp.pausedAt with
      | some p => Int.fdiv (p - s) 1000
      | none => Int.fdiv (now - s) 1000

/-- The `GET /api/now-playing` handler of the main variant: `none` models the
`{ playing: false }` responses (no current song, lookup error or missing
row); otherwise `currentTime` is clamped with `Math.max(0, _)` and
`remainingTime = Math.max(0, (song.duration || 0) - currentTime)` is computed
from the unclamped value. -/
def nowPlayingHandler (db : DB) (now : Int) (cp : CurrentlyPlaying) :
    Option NowPlayingInfo :=
  match cp.songId with
  | none => none
  | some sid =>
      match db.songs.find? (fun s => decide (s.id = sid)) with
      | none => none
      | some song =>
          let currentTime := rawCurrentTime now cp
          some { playing := cp.isPlaying,
                 currentTime := max 0 currentTime,
                 remainingTime := max 0 ((song.duration : Int) - currentTime),
                 duration := song.duration }

/-- `clear_votes.js`: `DELETE FROM votes` (all rows). -/
def clearVotes (db : DB) : DB :=
  { db with votes := [] }

/-- The Dockerfile runs `node clear_votes.js && npm start`, so every container
start clears the vote store before the server comes up. -/
def startupRoutine (db : DB) : DB :=
  clearVotes db

/-- A row of variant 1's `playlist` table (the columns its query reads). -/
structure PlaylistEntry where
  song_id : Nat
  added_at : Nat
  deriving DecidableEq, Repr

/-- The tables variant 1's stub `MusicPlayer` reads. -/
structure DB1 where
  songs : List Song
  votes : List VoteRow
  playlist : List PlaylistEntry
  deriving DecidableEq, Repr

/-- `COUNT(v.id)` per song for variant 1. -/
def voteCount1 (db : DB1) (sid : Nat) : Nat :=
  (db.votes.filter (fun v => decide (v.song_id = sid))).length

/-- The `JOIN playlist p JOIN songs s` rows of variant 1's `playNext` query,
paired with `p.added_at` (as an insertion index). -/
def playlistRows (db : DB1) : List (Song × Nat) :=
  db.playlist.filterMap (fun p =>
    (db.songs.find? (fun s => decide (s.id = p.song_id))).map (fun s => (s, p.added_at)))

/-- `ORDER BY vote_count DESC, p.added_at ASC` of variant 1's query. -/
def rowRel (db : DB1) (a b : Song × Nat) : Prop :=
  voteCount1 db b.1.id < voteCount1 db a.1.id ∨
    (voteCount1 db a.1.id = voteCount1 db b.1.id ∧ a.2 ≤ b.2)

instance (db : DB1) : DecidableRel (rowRel db) := fun a b => by
  unfold rowRel; exact inferInstance

/-- Variant 1's `playNext` query with its `LIMIT 1`. -/
def playNextQuery1 (db : DB1) : Option Song :=
  ((List.insertionSort (rowRel db) (playlistRows db)).head?).map Prod.fst

/-- The in-process state of variant 1's stub `MusicPlayer`; `timers` lists
the seconds values of the scheduled `songFinished` timeouts. -/
structure MusicPlayerState where
  currentSong : Option Song
  isPlaying : Bool
  timers : List Nat
  deriving DecidableEq, Repr

/-- Variant 1's stub `MusicPlayer.playNext()`: on a selected song it always
schedules `songFinished` after `(song.duration ? song.duration : 30)`
seconds — a 30-second fallback when the duration is unknown/zero. -/
def mpPlayNext (db : DB1) (p : MusicPlayerState) : MusicPlayerState :=
  match playNextQuery1 db with
  | none => p
  | some song =>
      { currentSong := some song, isPlaying := true,
        timers := p.timers ++ [if song.duration = 0 then 30 else song.duration] }

/-- Variant 1's vote handler after a successful insert:
`if (!musicPlayer.isPlaying) { setTimeout(() => musicPlayer.playNext(), 1000) }`. -/
def mpVoteAutoStart (db : DB1) (p : MusicPlayerState) : MusicPlayerState :=
  if p.isPlaying then p else mpPlayNext db p

theorem top_candidate_max (db : DB) (s : Song) (rest : List Song)
    (h : rankedCandidates db = s :: rest) :
    ∀ t ∈ rest, voteCount db t.id ≤ voteCount db s.id := by
  intro t ht
  have hs := sorted_rankedCandidates db
  rw [h] at hs
  have hrel : songRel db s t := List.rel_of_sorted_cons hs t ht
  rcases hrel with hlt | ⟨heq, _⟩
  · exact le_of_lt hlt
  · exact le_of_eq heq.symm

theorem clearPlayTimeout_currentlyPlaying (st : ServerState) :
    (clearPlayTimeout st).currentlyPlaying = st.currentlyPlaying := by
  unfold clearPlayTimeout
  cases st.playTimeout <;> rfl

theorem clearPlayTimeout_playTimeout (st : ServerState) :
    (clearPlayTimeout st).playTimeout = none := by
  unfold clearPlayTimeout
  cases h : st.playTimeout <;> simp [h]

theorem clearPlayTimeout_length (st : ServerState) :
    (clearPlayTimeout st).pendingTimers.length ≤ st.pendingTimers.length := by
  unfold clearPlayTimeout
  cases st.playTimeout
  · exact le_refl _
  · exact List.length_filter_le _ _

theorem armTimer_currentlyPlaying (st : ServerState) :
    (armTimer st).currentlyPlaying = st.currentlyPlaying := rfl

theorem armTimer_length (st : ServerState) :
    (armTimer st).pendingTimers.length = st.pendingTimers.length + 1 := by
  simp [armTimer]

theorem voteCount_pruneVotes_self (db : DB) (sid : Nat) :
    voteCount (pruneVotes db sid) sid = 0 := by
  simp only [voteCount, pruneVotes, List.filter_filter, List.length_eq_zero,
    List.filter_eq_nil_iff]
  intro v _
  simp

theorem voteCount_pruneVotes_other (db : DB) (sid t : Nat) (h : t ≠ sid) :
    voteCount (pruneVotes db sid) t = voteCount db t := by
  simp only [voteCount, pruneVotes, List.filter_filter]
  congr 1
  apply List.filter_congr
  intro v _
  by_cases hv : v.song_id = t
  · simp [hv, h]
  · simp [hv]

/-- C2 counterexample fixture: two songs with one vote each (a tie).  Both
orders allowed by the claim — track identifier ascending and insertion
order — are `[1, 2]` here. -/
def c2TieDb : DB :=
  { songs := [⟨1, "Zebra", 100⟩, ⟨2, "Apple", 100⟩],
    votes := [⟨7, 1⟩, ⟨7, 2⟩] }

/-- C2 counterexample: `musicPlayer.js` `getCurrentPlaylist` breaks the
vote-count tie by title (`ORDER BY votes DESC, s.title ASC`), returning
"Apple" (id 2) before "Zebra" (id 1) — neither track-identifier-ascending
order nor insertion order, both of which are `[1, 2]` on this store.  The
main scheduler's query orders the same tie `[1, 2]`. -/
theorem C2_title_tiebreak_counterexample :
    voteCount c2TieDb 1 = voteCount c2TieDb 2 ∧
    c2TieDb.songs.map Song.id = [1, 2] ∧
    (rankedCandidates c2TieDb).map Song.id = [1, 2] ∧
    (getCurrentPlaylist c2TieDb).map Song.id = [2, 1] := by decide

/-- C2 (amended): the main scheduler's candidate query (`playNextSong`)
returns exactly the songs with vote count > 0, sorted descending by vote
count with ties broken by song id ascending, so the head's count bounds
every later candidate's count; `musicPlayer.js` `getCurrentPlaylist` has the
same candidate set but breaks ties by title ascending instead.  Both are
pure functions of the store, hence deterministic on unchanged input. -/
theorem C2_ranking_ordered_and_complete :
    (∀ db s, s ∈ rankedCandidates db ↔ s ∈ db.songs ∧ 0 < voteCount db s.id) ∧
    (∀ db, (rankedCandidates db).Sorted (songRel db)) ∧
    (∀ db s rest, rankedCandidates db = s :: rest →
        ∀ t ∈ rest, voteCount db t.id ≤ voteCount db s.id) ∧
    (∀ db s, s ∈ getCurrentPlaylist db ↔ s ∈ db.songs ∧ 0 < voteCount db s.id) ∧
    (∀ db, (getCurrentPlaylist db).Sorted (titleRel db)) :=
  ⟨mem_rankedCandidates, sorted_rankedCandidates, top_candidate_max,
   mem_getCurrentPlaylist, sorted_getCurrentPlaylist⟩

/-- C2 witness fixture: song 1 has two votes, song 2 has one. -/
def c2Db : DB :=
  { songs := [⟨1, "A", 9⟩, ⟨2, "B", 9⟩],
    votes := [⟨1, 1⟩, ⟨1, 2⟩, ⟨2, 1⟩] }

theorem C2_ranking_witness :
    voteCount c2Db 2 ≤ voteCount c2Db 1 ∧
      (⟨1, "A", 9⟩ : Song) ∈ rankedCandidates c2Db :=
  ⟨C2_ranking_ordered_and_complete.2.2.1 c2Db ⟨1, "A", 9⟩ [⟨2, "B", 9⟩]
      (by decide) ⟨2, "B", 9⟩ (by decide),
   (C2_ranking_ordered_and_complete.1 c2Db ⟨1, "A", 9⟩).mpr (by decide)⟩

/-- C9 counterexample fixture: one song with one vote. -/
def c9Db : DB := { songs := [⟨1, "A", 10⟩], votes := [⟨1, 1⟩] }

/-- C9 counterexample: the Dockerfile start command is
`node clear_votes.js && npm start`, so a startup routine does remove votes —
every container start empties the vote store before the server comes up,
refuting durability across process restarts. -/
theorem C9_startup_clear_counterexample :
    voteCount c9Db 1 = 1 ∧ voteCount (startupRoutine c9Db) 1 = 0 := by decide

/-- C9 (amended): votes are destroyed by the voting user's retraction
(which removes exactly that `(user, track)` row), by Scheduler pruning for
the affected track, and — in addition to the destruction paths the claim
lists — by the `clear_votes.js` startup routine the Dockerfile runs before
`npm start`, which deletes every vote on each container start. -/
theorem C9_vote_destruction_paths :
    (∀ db t, voteCount (startupRoutine db) t = 0) ∧
    (∀ db u s v, v ∈ (removeVoteHandler db u s).votes ↔
        v ∈ db.votes ∧ ¬ (v.user_id = u ∧ v.song_id = s)) ∧
    (∀ db sid, voteCount (pruneVotes db sid) sid = 0) ∧
    (∀ db sid t, t ≠ sid → voteCount (pruneVotes db sid) t = voteCount db t) := by
  refine ⟨?_, ?_, voteCount_pruneVotes_self, voteCount_pruneVotes_other⟩
  · intro db t
    simp [startupRoutine, clearVotes, voteCount]
  · intro db u s v
    simp only [removeVoteHandler, List.mem_filter, decide_eq_true_eq]

theorem C9_vote_destruction_witness :
    voteCount (pruneVotes c9Db 2) 1 = voteCount c9Db 1 ∧
      voteCount (startupRoutine c9Db) 1 = 0 :=
  ⟨C9_vote_destruction_paths.2.2.2 c9Db 2 1 (by decide),
   C9_vote_destruction_paths.1 c9Db 1⟩

/-- C6 counterexample fixture for variant 1: a catalog entry with zero
(unknown) duration, one vote, one playlist row. -/
def c6Stub : DB1 :=
  { songs := [⟨1, "Z", 0⟩], votes := [⟨1, 1⟩], playlist := [⟨1, 0⟩] }

/-- C6 counterexample: variant 1's stub `MusicPlayer.playNext()` selects the
zero-duration track and still schedules `songFinished` — with the 30-second
fallback `(song.duration ? song.duration : 30)` — so a timer is armed for a
track of unknown/zero duration and the session can leave Playing by timer. -/
theorem C6_stub_arms_timer_counterexample :
    (mpPlayNext c6Stub ⟨none, false, []⟩).currentSong = some ⟨1, "Z", 0⟩ ∧
    (⟨1, "Z", 0⟩ : Song).duration = 0 ∧
    (mpPlayNext c6Stub ⟨none, false, []⟩).timers = [30] := by decide

/-- C6 (amended): the main scheduler (`playNextSong`) arms no auto-advance
timer when the selected track's duration is unknown/zero (`if
(song.duration)` guard), leaving the timer state untouched; variant 1's stub
`MusicPlayer` instead always arms one, falling back to 30 seconds for an
unknown/zero duration. -/
theorem C6_zero_duration_timer :
    (∀ db now st song, playNextSongQuery db = some song → song.duration = 0 →
        (playNextSong db false now st).2.pendingTimers = st.pendingTimers ∧
        (playNextSong db false now st).2.playTimeout = st.playTimeout) ∧
    (∀ db p song, playNextQuery1 db = some song → song.duration = 0 →
        (mpPlayNext db p).timers = p.timers ++ [30]) := by
  constructor
  · intro db now st song hq hd
    simp [playNextSong, hq, hd]
  · intro db p song hq hd
    simp [mpPlayNext, hq, hd]

/-- C6 witness fixture: the main store holding only the zero-duration track
with a vote. -/
def c6Db : DB := { songs := [⟨1, "Z", 0⟩], votes := [⟨1, 1⟩] }

theorem C6_zero_duration_witness :
    (playNextSong c6Db false 0 initialState).2.pendingTimers = [] ∧
      (mpPlayNext c6Stub ⟨none, false, []⟩).timers = [30] :=
  ⟨((C6_zero_duration_timer.1 c6Db 0 initialState ⟨1, "Z", 0⟩ (by decide) rfl).1),
   C6_zero_duration_timer.2 c6Stub ⟨none, false, []⟩ ⟨1, "Z", 0⟩ (by decide) rfl⟩

/-- C1 fixture: song 1 (duration 1 s) holds the single vote and is the
current track, with the auto-advance timeout (id 0) armed — the state
`playNextSong` produces after the vote auto-start. -/
def c1Db : DB := { songs := [⟨1, "A", 1⟩], votes := [⟨1, 1⟩] }

def c1St : ServerState :=
  { currentlyPlaying :=
      { songId := some 1, startTime := some 0, duration := 1,
        isPlaying := true, pausedAt := none },
    pendingTimers := [0], playTimeout := some 0, nextTimerId := 1 }

/-- C1 (code bug): when the auto-advance timeout expires, its callback is
`playNextSong(() => {})`, which never deletes votes — so after timer expiry
for current track 1 the store still holds its vote (`countsByTrack()[1] = 1`)
and the same track is re-selected; the `/api/skip` and `/api/song-finished`
handlers for the identical event do prune it to 0. -/
theorem C1_timer_expiry_no_prune :
    voteCount (timerFires c1Db 0 1000 c1St).1 1 = 1 ∧
    (timerFires c1Db 0 1000 c1St).2.currentlyPlaying.songId = some 1 ∧
    voteCount (skipHandler c1Db false c1St).2.1 1 = 0 ∧
    voteCount (songFinishedHandler c1Db false c1St).2.1 1 = 0 := by decide

/-- C3: adding a vote while a track is in progress never changes the session:
the main variant's vote handler auto-starts only under
`!currentlyPlaying.isPlaying && !currentlyPlaying.songId`, and variant 1's
only under `!musicPlayer.isPlaying`, so with `isPlaying` true the state
(current track, status, timers) is returned untouched — no preemption. -/
theorem C3_no_preemption :
    (∀ db u sid now st, st.currentlyPlaying.isPlaying = true →
        (voteHandler db u sid now st).2.2 = st) ∧
    (∀ db p, p.isPlaying = true → mpVoteAutoStart db p = p) := by
  constructor
  · intro db u sid now st h
    unfold voteHandler
    split_ifs with h1 h2 h3
    · rfl
    · simp [h] at h3
    · rfl
    · rfl
  · intro db p h
    simp [mpVoteAutoStart, h]

/-- C3 witness fixture: user 2 votes for song 2 while song 1 plays. -/
def c3Db : DB := { songs := [⟨1, "A", 100⟩, ⟨2, "B", 100⟩], votes := [⟨1, 1⟩] }

def c3St : ServerState :=
  { currentlyPlaying :=
      { songId := some 1, startTime := some 0, duration := 100,
        isPlaying := true, pausedAt := none },
    pendingTimers := [0], playTimeout := some 0, nextTimerId := 1 }

theorem C3_no_preemption_witness :
    (voteHandler c3Db 2 2 5000 c3St).2.2 = c3St ∧
      mpVoteAutoStart c6Stub ⟨some ⟨1, "Z", 0⟩, true, [30]⟩ =
        ⟨some ⟨1, "Z", 0⟩, true, [30]⟩ :=
  ⟨C3_no_preemption.1 c3Db 2 2 5000 c3St rfl,
   C3_no_preemption.2 c6Stub ⟨some ⟨1, "Z", 0⟩, true, [30]⟩ rfl⟩

/-- C4 counterexample fixture: song 1 is playing, song 2 also holds a vote. -/
def c4Db : DB :=
  { songs := [⟨1, "A", 100⟩, ⟨2, "B", 100⟩], votes := [⟨1, 1⟩, ⟨1, 2⟩] }

def c4St : ServerState :=
  { currentlyPlaying :=
      { songId := some 1, startTime := some 0, duration := 100,
        isPlaying := true, pausedAt := none },
    pendingTimers := [0], playTimeout := some 0, nextTimerId := 1 }

/-- C4 counterexample: after `/api/skip`, song 2 is a (top) candidate in the
pruned store, yet the session is left fully idle — the handler responds
without ever invoking `playNextSong`, so no re-selection is attempted. -/
theorem C4_no_reselection_counterexample :
    (skipHandler c4Db false c4St).2.2.currentlyPlaying = idleState ∧
    playNextSongQuery (skipHandler c4Db false c4St).2.1 = some ⟨2, "B", 100⟩ := by
  decide

/-- C4 (amended): on a successful `/api/skip` with a current track, the
handler cancels the stored timeout, prunes exactly the current track's votes,
and transitions the session to Idle; it does not attempt re-selection — the
session stays idle until the next scheduling trigger. -/
theorem C4_skip_contract (db : DB) (st : ServerState) (sid : Nat)
    (h : st.currentlyPlaying.songId = some sid) :
    (skipHandler db false st).1 = .jsonMsg "Song skipped, votes removed" ∧
    voteCount (skipHandler db false st).2.1 sid = 0 ∧
    (∀ t, t ≠ sid → voteCount (skipHandler db false st).2.1 t = voteCount db t) ∧
    (skipHandler db false st).2.2.currentlyPlaying = idleState ∧
    (skipHandler db false st).2.2.playTimeout = none := by
  have hs : skipHandler db false st =
      (.jsonMsg "Song skipped, votes removed", pruneVotes db sid,
        { clearPlayTimeout st with currentlyPlaying := idleState }) := by
    simp [skipHandler, h]
  rw [hs]
  exact ⟨rfl, voteCount_pruneVotes_self db sid,
    fun t ht => voteCount_pruneVotes_other db sid t ht, rfl,
    clearPlayTimeout_playTimeout st⟩

theorem C4_skip_contract_witness :
    voteCount (skipHandler c4Db false c4St).2.1 1 = 0 ∧
      (skipHandler c4Db false c4St).2.2.playTimeout = none :=
  ⟨(C4_skip_contract c4Db c4St 1 rfl).2.1,
   (C4_skip_contract c4Db c4St 1 rfl).2.2.2.2⟩

/-- C7: with the storage layer failing, the candidate read of `playNextSong`
reports no song and leaves the whole state untouched, and a failing vote
prune in the skip / song-finished handlers answers 500, leaving the vote
store and the `currentlyPlaying` record (current track, status, timing
fields) exactly as they were — no transition is committed on a failed read
or prune. -/
theorem C7_storage_failure_frozen :
    (∀ db now st, playNextSong db true now st = (none, st)) ∧
    (∀ db st sid, st.currentlyPlaying.songId = some sid →
        (skipHandler db true st).1 = .status500 "Database error" ∧
        (skipHandler db true st).2.1 = db ∧
        (skipHandler db true st).2.2.currentlyPlaying = st.currentlyPlaying) ∧
    (∀ db st sid, st.currentlyPlaying.songId = some sid →
        (songFinishedHandler db true st).1 = .status500 "Database error" ∧
        (songFinishedHandler db true st).2.1 = db ∧
        (songFinishedHandler db true st).2.2.currentlyPlaying =
          st.currentlyPlaying) := by
  refine ⟨fun db now st => rfl, ?_, ?_⟩
  · intro db st sid h
    have hs : skipHandler db true st =
        (.status500 "Database error", db, clearPlayTimeout st) := by
      simp [skipHandler, h]
    rw [hs]
    exact ⟨rfl, rfl, clearPlayTimeout_currentlyPlaying st⟩
  · intro db st sid h
    have hs : songFinishedHandler db true st =
        (.status500 "Database error", db, clearPlayTimeout st) := by
      simp [songFinishedHandler, h]
    rw [hs]
    exact ⟨rfl, rfl, clearPlayTimeout_currentlyPlaying st⟩

theorem C7_storage_failure_witness :
    playNextSong c4Db true 0 c4St = (none, c4St) ∧
      (skipHandler c4Db true c4St).2.1 = c4Db ∧
      (songFinishedHandler c4Db true c4St).2.2.currentlyPlaying =
        c4St.currentlyPlaying :=
  ⟨C7_storage_failure_frozen.1 c4Db 0 c4St,
   (C7_storage_failure_frozen.2.1 c4Db c4St 1 rfl).2.1,
   (C7_storage_failure_frozen.2.2 c4Db c4St 1 rfl).2.2⟩

/-- C5: pausing at instant `p` and resuming at any later instant `now2`
rewrites `startTime` to `now2 - (p - s0)`, so the now-playing report taken
after the resume shows `currentTime` equal to the elapsed seconds at the
pause and `remainingTime = max 0 (duration - elapsedBeforePause)` — the
formulas do not mention `now2`, so the pause gap Δ is fully absorbed and the
remaining time is not reduced by it. -/
theorem C5_pause_resume_roundtrip (db : DB) (sid : Nat) (song : Song) (d : Nat)
    (s0 p now2 : Int) (st : ServerState)
    (hcp : st.currentlyPlaying =
      { songId := some sid, startTime := some s0, duration := d,
        isPlaying := true, pausedAt := none })
    (hfind : db.songs.find? (fun s => decide (s.id = sid)) = some song) :
    nowPlayingHandler db now2
        ((pauseHandler now2 ((pauseHandler p st).2)).2).currentlyPlaying =
      some { playing := true,
             currentTime := max 0 (Int.fdiv (p - s0) 1000),
             remainingTime :=
               max 0 ((song.duration : Int) - Int.fdiv (p - s0) 1000),
             duration := song.duration } := by
  have h1 : ((pauseHandler p st).2).currentlyPlaying =
      { songId := some sid, startTime := some s0, duration := d,
        isPlaying := false, pausedAt := some p } := by
    unfold pauseHandler
    simp [hcp, clearPlayTimeout_currentlyPlaying]
  have h2 : ∀ st1 : ServerState, st1.currentlyPlaying =
      { songId := some sid, startTime := some s0, duration := d,
        isPlaying := false, pausedAt := some p } →
      ((pauseHandler now2 st1).2).currentlyPlaying =
        { songId := some sid, startTime := some (now2 - (p - s0)),
          duration := d, isPlaying := true, pausedAt := none } := by
    intro st1 h1'
    unfold pauseHandler
    simp only [h1']
    split_ifs <;>
      first
        | exact absurd ‹false = true› (by simp)
        | exact absurd ‹False› id
        | simp [armTimer_currentlyPlaying]
  rw [h2 _ h1]
  unfold nowPlayingHandler rawCurrentTime
  simp only [hfind]
  have harith : now2 - (now2 - (p - s0)) = p - s0 := by ring
  simp [harith]

/-- C5 witness fixture: scenario E of the spec — a 180-second track paused
at 30 s elapsed and resumed 50 s later. -/
def c5Db : DB := { songs := [⟨1, "A", 180⟩], votes := [⟨1, 1⟩] }

def c5St : ServerState :=
  { currentlyPlaying :=
      { songId := some 1, startTime := some 0, duration := 180,
        isPlaying := true, pausedAt := none },
    pendingTimers := [0], playTimeout := some 0, nextTimerId := 1 }

theorem C5_pause_resume_witness :
    nowPlayingHandler c5Db 80000
        ((pauseHandler 80000 ((pauseHandler 30000 c5St).2)).2).currentlyPlaying =
      some { playing := true,
             currentTime := max 0 (Int.fdiv (30000 - 0) 1000),
             remainingTime :=
               max 0 (((⟨1, "A", 180⟩ : Song).duration : Int) -
                 Int.fdiv (30000 - 0) 1000),
             duration := (⟨1, "A", 180⟩ : Song).duration } :=
  C5_pause_resume_roundtrip c5Db 1 ⟨1, "A", 180⟩ 180 0 30000 80000 c5St rfl rfl

/-- C8 counterexample fixture: from process start, one vote auto-starts the
playlist (arming timer 0); a `POST /api/play-next` then runs `playNextSong`
again, which arms timer 1 without cancelling timer 0. -/
def c8Db : DB := { songs := [⟨1, "A", 5⟩], votes := [] }

def c8AfterVoteDb : DB := (voteHandler c8Db 1 1 0 initialState).2.1

def c8AfterVoteSt : ServerState := (voteHandler c8Db 1 1 0 initialState).2.2

/-- C8 counterexample: a reachable state with two auto-advance timeouts
outstanding at once — `playNextSong` overwrites `playTimeout` with a fresh
`setTimeout` handle but never clears the previous one, so the
at-most-one-outstanding-timer invariant fails. -/
theorem C8_two_timers_counterexample :
    c8AfterVoteSt.pendingTimers.length = 1 ∧
    (playNextSong c8AfterVoteDb false 1000 c8AfterVoteSt).2.pendingTimers.length
      = 2 := by decide

/-- C8 (amended): the pause endpoint is a toggle, so its resume branch runs
only when the session is not playing — invoking it while Playing takes the
pause branch, which only cancels (never arms) a timeout — and any single
invocation arms at most one new timeout; `playNextSong` likewise arms at
most one per call, but without cancelling the previous one, so "at most one
timer outstanding" is not an invariant of reachable states. -/
theorem C8_resume_single_arm :
    (∀ now st, st.currentlyPlaying.isPlaying = true →
        (pauseHandler now st).2.pendingTimers.length ≤
          st.pendingTimers.length) ∧
    (∀ now st, (pauseHandler now st).2.pendingTimers.length ≤
        st.pendingTimers.length + 1) ∧
    (∀ db fail now st,
        (playNextSong db fail now st).2.pendingTimers.length ≤
          st.pendingTimers.length + 1) := by
  refine ⟨?_, ?_, ?_⟩
  · intro now st h
    unfold pauseHandler
    rcases hsid : st.currentlyPlaying.songId with _ | sid
    · simp
    · simp only [h, if_true]
      exact clearPlayTimeout_length _
  · intro now st
    unfold pauseHandler
    rcases hsid : st.currentlyPlaying.songId with _ | sid
    · simp [Nat.le_succ]
    · dsimp only
      split_ifs
      · exact le_trans (clearPlayTimeout_length _) (Nat.le_succ _)
      · simp [armTimer]
      · exact Nat.le_succ _
      · exact Nat.le_succ _
  · intro db fail now st
    unfold playNextSong
    split_ifs with hf
    · exact Nat.le_succ _
    · rcases hq : playNextSongQuery db with _ | song
      · simp [hq, Nat.le_succ]
      · simp only [hq]
        split_ifs with hd
        · simp [armTimer]
        · exact Nat.le_succ _

theorem C8_resume_single_arm_witness :
    (pauseHandler 1000 c5St).2.pendingTimers.length ≤
      c5St.pendingTimers.length :=
  C8_resume_single_arm.1 1000 c5St rfl

/-- C10: whenever the now-playing handler reports on a current track, the
reported `currentTime` and `remainingTime` are nonnegative; as long as the
raw elapsed value is nonnegative (true in every reachable state, since
`startTime ≤ pausedAt/now`), `remainingTime = max 0 (duration -
currentTime)`, and once the raw elapsed value reaches the duration — e.g.
the wall clock has passed the track's end without the timer firing — the
reported remaining time is exactly 0, never negative. -/
theorem C10_now_playing_clamped (db : DB) (now : Int) (cp : CurrentlyPlaying)
    (r : NowPlayingInfo) (hr : nowPlayingHandler db now cp = some r) :
    0 ≤ r.currentTime ∧ 0 ≤ r.remainingTime ∧
    (0 ≤ rawCurrentTime now cp →
        r.remainingTime = max 0 ((r.duration : Int) - r.currentTime)) ∧
    ((r.duration : Int) ≤ rawCurrentTime now cp → r.remainingTime = 0) := by
  unfold nowPlayingHandler at hr
  rcases hsid : cp.songId with _ | sid
  · rw [hsid] at hr
    exact absurd hr (by simp)
  · rw [hsid] at hr
    dsimp only at hr
    rcases hfind : db.songs.find? (fun s => decide (s.id = sid)) with _ | song
    · rw [hfind] at hr
      exact absurd hr (by simp)
    · rw [hfind] at hr
      dsimp only at hr
      simp only [Option.some.injEq] at hr
      subst hr
      refine ⟨le_max_left 0 _, le_max_left 0 _, ?_, ?_⟩
      · intro hraw
        dsimp only
        rw [max_eq_right hraw]
      · intro hdur
        dsimp only at hdur ⊢
        rw [max_eq_left (sub_nonpos.mpr hdur)]

/-- C10 witness fixture: a 10-second track 20 wall-clock seconds after its
start (the timer never fired). -/
def c10Db : DB := { songs := [⟨1, "A", 10⟩], votes := [] }

def c10Cp : CurrentlyPlaying :=
  { songId := some 1, startTime := some 0, duration := 10,
    isPlaying := true, pausedAt := none }

def c10R : NowPlayingInfo :=
  { playing := true, currentTime := 20, remainingTime := 0, duration := 10 }

theorem C10_now_playing_witness :
    (0 : Int) ≤ c10R.currentTime ∧ c10R.remainingTime = 0 :=
  ⟨(C10_now_playing_clamped c10Db 20000 c10Cp c10R (by decide)).1,
   (C10_now_playing_clamped c10Db 20000 c10Cp c10R (by decide)).2.2.2
     (by decide)⟩

end Jukebox
